import Mathlib

/-!
Verification of the core transformation engine of the Noon Deal Sheet
Generator (src/app.py).

The script reads one tabular file, filters per (partner, deal) pairs,
computes discounted prices and fallback stock, and emits one sheet per
eligible pair plus deduplicated per-deal summary sheets.  We embed the
engine shallowly:

* a `Cell` is a spreadsheet value after `pd.read_excel`: a number, a
  string, or missing (`NaN`).  Floating point is modelled by `ℚ`; numeric
  Excel cells arrive as numbers.
* a `Row` is an association list from (already whitespace-trimmed) column
  names to cells; a `DataFrame` is a column list plus rows.
* pandas `NaN` semantics: `NaN == x` is false for every `x` (including
  `NaN`), which `cellEq` reproduces; `pd.unique` nevertheless keeps a
  single `NaN`, which the structural-equality dedup `firstSeen` reproduces.
* `pd.to_numeric(errors='coerce')` is `toNumeric` (non-numbers coerce to
  missing).
* `.round(2)` is modelled by `round2`; pandas rounds half to even while
  `round` rounds half away from even ties, a divergence only on exact ties
  at the third decimal, which no statement below depends on.
* `Series.max()` over an all-positive column is `deal_max` (fold of `max`
  with base 0, which agrees with the true maximum on positive values and
  makes the `> 1` test correct even for the empty list).
* Python's `list(set(...))` has unspecified order; it is modelled as
  first-seen-order deduplication (`firstSeen`), which preserves exactly the
  membership and no-duplicates facts stated below.
-/

namespace Deals

/-- One spreadsheet cell: a number, a string, or missing (`NaN`). -/
inductive Cell where
  | null : Cell
  | num  : ℚ → Cell
  | str  : String → Cell
deriving DecidableEq, Repr

/-- Pandas elementwise equality: `NaN` compares unequal to everything,
including itself; numbers and strings never compare equal across kinds. -/
def cellEq : Cell → Cell → Bool
  | Cell.num a, Cell.num b => a == b
  | Cell.str a, Cell.str b => a == b
  | _, _ => false

/-- `pd.to_numeric(..., errors='coerce')` (line 94): numbers pass through,
everything else (strings, `NaN`) coerces to missing. -/
def toNumeric : Cell → Option ℚ
  | Cell.num q => some q
  | _ => none

/-- Python `str(...)` of a cell value, used for `clean_id` (line 129).
String cells render as themselves; the numeric rendering is a stand-in for
Python's float formatting (the statements below only use string ids). -/
def cellStr : Cell → String
  | Cell.null => "nan"
  | Cell.num q => toString q
  | Cell.str s => s

/-- A row: association list from column name to cell. -/
abbrev Row := List (String × Cell)

/-- Read a cell from a row; a column absent from the row reads as `NaN`. -/
def getCell (r : Row) (c : String) : Cell := (r.lookup c).getD Cell.null

/-- The input table: column names (whitespace-trimmed on ingestion,
line 60) and rows. -/
structure DataFrame where
  cols : List String
  rows : List Row
deriving DecidableEq

/-- A data frame is well formed when every key of every row is one of its
columns (pandas rows always carry exactly the frame's columns). -/
def WellFormed (df : DataFrame) : Prop :=
  ∀ r ∈ df.rows, ∀ p ∈ r, Prod.fst p ∈ df.cols

instance : DecidablePred WellFormed := fun df => by
  unfold WellFormed
  infer_instance

/-- A user-entered deal definition (`st.session_state.deal_types`). -/
structure Deal where
  col_name : String
  deal_code : String
deriving DecidableEq, Repr

/-- Python's `str.strip()`: drop leading and trailing whitespace. -/
def pyStrip (s : String) : String :=
  String.mk
    (((s.data.dropWhile Char.isWhitespace).reverse.dropWhile
        Char.isWhitespace).reverse)

/-- Line 66: the deals whose code is non-empty after stripping. -/
def active_deals (dealTypes : List Deal) : List Deal :=
  dealTypes.filter (fun d => pyStrip d.deal_code ≠ "")

/-- First-seen-order deduplication (used for `pd.unique`, for the keys of
the `deal_summaries` dict, and to model `list(set(...))`). -/
def firstSeen {α : Type} [DecidableEq α] (l : List α) : List α :=
  l.foldl (fun acc a => if a ∈ acc then acc else acc ++ [a]) []

/-- Line 77: `df['ID Partner'].unique()` — partner ids in first-seen
order, a single entry for `NaN`. -/
def partners (df : DataFrame) : List Cell :=
  firstSeen (df.rows.map (fun r => getCell r "ID Partner"))

/-- Line 87: `df[df['ID Partner'] == partner_id]` — the partner's row
subset (pandas equality, so `NaN`-id rows match no group). -/
def partner_df (df : DataFrame) (pid : Cell) : List Row :=
  df.rows.filter (fun r => cellEq (getCell r "ID Partner") pid)

/-- Line 96: the eligibility mask — the deal column's value is present,
numeric, and strictly positive. -/
def mask (col : String) (r : Row) : Bool :=
  match toNumeric (getCell r col) with
  | some v => decide (0 < v)
  | none => false

/-- Line 97: the partner's rows that pass the mask for this deal column. -/
def deal_data (df : DataFrame) (pid : Cell) (col : String) : List Row :=
  (partner_df df pid).filter (mask col)

/-- Line 104: `deal_data[col_name].max()`.  Fold of `max` with base 0:
on the all-positive filtered column this is the true maximum, and on the
empty list it is 0, so the `> 1` comparison is faithful in both cases. -/
def deal_max (col : String) (rs : List Row) : ℚ :=
  (rs.filterMap (fun r => toNumeric (getCell r col))).foldr max 0

/-- Lines 104–107: the single per-subset decision whether the column is
percent-scaled (divide by 100). -/
def divideDecision (col : String) (rs : List Row) : Bool :=
  decide (1 < deal_max col rs)

/-- Lines 105 and 107: the per-value discount factor under the global
decision. -/
def discount_factor (divide : Bool) (v : ℚ) : ℚ :=
  if divide then v / 100 else v

/-- Rounding to 2 decimal places (line 110's `.round(2)`): the nearest
multiple of 1/100, ties rounded up (pandas rounds ties to even; no
statement below distinguishes the two tie rules). -/
def round2 (q : ℚ) : ℚ := ((q * 100 + 1 / 2).floor : ℚ) / 100

/-- Lines 109–110: `deal_price = round(Offer Price * (1 - factor), 2)`.
A missing (or non-numeric) offer price propagates to a missing price. -/
def deal_price (divide : Bool) (col : String) (r : Row) : Option ℚ :=
  match toNumeric (getCell r "Offer Price"), toNumeric (getCell r col) with
  | some p, some d => some (round2 (p * (1 - discount_factor divide d)))
  | _, _ => none

/-- Line 112: `.fillna(0)` on the stock column. -/
def fillna0 : Cell → Cell
  | Cell.null => Cell.num 0
  | c => c

/-- Lines 112–115: fallback stock substitution — after coercing `NaN` to
0, a value equal to 0 becomes the configured fallback, anything else is
kept unchanged. -/
def deal_stock (fallback : ℚ) (r : Row) : Cell :=
  if cellEq (fillna0 (getCell r "Psku Live Express Stock")) (Cell.num 0)
  then Cell.num fallback
  else fillna0 (getCell r "Psku Live Express Stock")

/-- The output schema (lines 120–126). -/
structure OutputRow where
  deal_code : String
  id_partner : Cell
  partner_sku : Cell
  deal_price : Option ℚ
  deal_stock : Cell
  business_model : String
deriving DecidableEq, Repr

/-- Lines 109–126: one output row from one eligible input row. -/
def mkOutputRow (fallback : ℚ) (deal : Deal) (divide : Bool) (r : Row) :
    OutputRow where
  deal_code := deal.deal_code
  id_partner := getCell r "ID Partner"
  partner_sku := getCell r "Psku"
  deal_price := deal_price divide deal.col_name r
  deal_stock := deal_stock fallback r
  business_model := "noon"

/-- Line 128: `"".join(x for x in col_name if x.isalnum())[:10]`. -/
def clean_deal (col_name : String) : String :=
  (String.mk (col_name.data.filter Char.isAlphanum)).take 10

/-- Line 129: `str(partner_id)[:15]` — truncation only, no character
filtering. -/
def clean_id (pid : Cell) : String := (cellStr pid).take 15

/-- Line 130: the partner sheet's name. -/
def sheet_name (pid : Cell) (col_name : String) : String :=
  clean_id pid ++ "_" ++ clean_deal col_name

/-- Line 143: `"".join(x for x in deal_code if x.isalnum() or x in
['-', '_'])[:20]`. -/
def safe_deal_code (code : String) : String :=
  (String.mk (code.data.filter
    (fun x => x.isAlphanum || x = '-' || x = '_'))).take 20

/-- Lines 93–131 for one (partner, deal) pair: `none` when the deal column
is absent from the frame or no row passes the mask (no sheet written);
otherwise the output rows and the offer codes appended to the deal's
summary accumulator (line 101). -/
def make_sheet (fallback : ℚ) (df : DataFrame) (pid : Cell) (deal : Deal) :
    Option (List OutputRow × List Cell) :=
  if deal.col_name ∈ df.cols then
    if (deal_data df pid deal.col_name).isEmpty then none
    else some
      ((deal_data df pid deal.col_name).map
        (mkOutputRow fallback deal
          (divideDecision deal.col_name (deal_data df pid deal.col_name))),
       (deal_data df pid deal.col_name).map (fun r => getCell r "Offer Code"))
  else none

/-- A written sheet's contents: a partner sheet or a summary sheet. -/
inductive SheetContent where
  | partner (rows : List OutputRow)
  | summary (codes : List Cell)
deriving DecidableEq

/-- Lines 86–131: every partner sheet written, in write order (partners
outer, active deals inner). -/
def partner_sheets (fallback : ℚ) (deals : List Deal) (df : DataFrame) :
    List (String × SheetContent) :=
  (partners df).flatMap (fun pid =>
    deals.filterMap (fun deal =>
      (make_sheet fallback df pid deal).map (fun pr =>
        (sheet_name pid deal.col_name, SheetContent.partner pr.1))))

/-- Lines 81 and 101: the contents of `deal_summaries[code]` after the
processing loop — offer codes appended partner by partner, deal by deal,
for every deal carrying this code. -/
def deal_summaries (fallback : ℚ) (deals : List Deal) (df : DataFrame)
    (code : String) : List Cell :=
  (partners df).flatMap (fun pid =>
    deals.flatMap (fun deal =>
      if deal.deal_code = code then
        match make_sheet fallback df pid deal with
        | some pr => pr.2
        | none => []
      else []))

/-- Lines 136–148 for one deal code: no sheet when nothing was collected,
otherwise the `Summary_<code>` sheet with duplicates removed. -/
def summary_for (fallback : ℚ) (deals : List Deal) (df : DataFrame)
    (code : String) : Option (String × SheetContent) :=
  let offer_codes := deal_summaries fallback deals df code
  if offer_codes.isEmpty then none
  else some ("Summary_" ++ safe_deal_code code,
             SheetContent.summary (firstSeen offer_codes))

/-- Lines 136–148: all summary sheets, one per distinct collected deal
code, in dict insertion order. -/
def summary_sheets (fallback : ℚ) (deals : List Deal) (df : DataFrame) :
    List (String × SheetContent) :=
  (firstSeen (deals.map Deal.deal_code)).filterMap
    (summary_for fallback deals df)

/-- Every sheet a full pass writes, partner sheets then summaries. -/
def all_sheets (fallback : ℚ) (deals : List Deal) (df : DataFrame) :
    List (String × SheetContent) :=
  partner_sheets fallback deals df ++ summary_sheets fallback deals df

/-- The user-visible outcome of one generation run. -/
inductive Outcome where
  | warnNoActiveDeals
  | errMissingPartnerCol
  | errMissingOfferCol
  | warnNoMatchingDeals
  | success
deriving DecidableEq, Repr

/-- Result of one run: the outcome message, the sheets written to the
workbook, and the stored artifact (`st.session_state.processed_data`)
afterwards. -/
structure RunResult where
  outcome : Outcome
  sheets : List (String × SheetContent)
  processed_data : Option (List (String × SheetContent))
deriving DecidableEq

/-- Lines 66–157: one generation run.  `prev` is the stored artifact going
in; the three configuration branches leave it untouched, a full pass
stores the workbook when at least one sheet was created and clears it
otherwise. -/
def generate (fallback : ℚ) (dealTypes : List Deal) (df : DataFrame)
    (prev : Option (List (String × SheetContent))) : RunResult :=
  let deals := active_deals dealTypes
  if deals.isEmpty then ⟨Outcome.warnNoActiveDeals, [], prev⟩
  else if "ID Partner" ∉ df.cols then ⟨Outcome.errMissingPartnerCol, [], prev⟩
  else if "Offer Code" ∉ df.cols then ⟨Outcome.errMissingOfferCol, [], prev⟩
  else
    let sheets := all_sheets fallback deals df
    if sheets.isEmpty then ⟨Outcome.warnNoMatchingDeals, sheets, none⟩
    else ⟨Outcome.success, sheets, some sheets⟩

/-- The offer codes of every row that qualifies for a deal across all
partner groups (the reference set for the summary claims). -/
def qualified_codes (df : DataFrame) (deal : Deal) : List Cell :=
  (partners df).flatMap (fun pid =>
    (deal_data df pid deal.col_name).map (fun r => getCell r "Offer Code"))

/-! Concrete fixtures used by the witness and counterexample theorems. -/

/-- The row of the spec's §8 scenario: OfferPrice 100, Spotlight 10,
stock 0, offer code OC1. -/
def sampleRow : Row :=
  [("ID Partner", Cell.str "P1"), ("Psku", Cell.str "S1"),
   ("Offer Price", Cell.num 100), ("Psku Live Express Stock", Cell.num 0),
   ("Offer Code", Cell.str "OC1"), ("Spotlight", Cell.num 10)]

/-- The input table of the spec's §8 scenario (restricted to one
partner). -/
def sampleDf : DataFrame where
  cols := ["ID Partner", "Psku", "Offer Price", "Psku Live Express Stock",
           "Offer Code", "Spotlight"]
  rows := [sampleRow]

/-- The deal of the spec's §8 scenario. -/
def sampleDeal : Deal := ⟨"Spotlight", "SPOT1"⟩

/-- A row with a fraction-scale discount (0.5 ≤ 1). -/
def fracRow : Row :=
  [("ID Partner", Cell.str "P1"), ("Psku", Cell.str "S1"),
   ("Offer Price", Cell.num 100), ("Psku Live Express Stock", Cell.num 3),
   ("Offer Code", Cell.str "OC1"), ("Spotlight", Cell.num (1 / 2))]

/-- A table whose only Spotlight value is fraction-scale. -/
def fracDf : DataFrame where
  cols := ["ID Partner", "Psku", "Offer Price", "Psku Live Express Stock",
           "Offer Code", "Spotlight"]
  rows := [fracRow]

/-- A row with a 150 discount (percent scale, > 100%) and negative
stock. -/
def negRow : Row :=
  [("ID Partner", Cell.str "P1"), ("Psku", Cell.str "S1"),
   ("Offer Price", Cell.num 100), ("Psku Live Express Stock", Cell.num (-5)),
   ("Offer Code", Cell.str "OC1"), ("Spotlight", Cell.num 150)]

/-- A table exhibiting a negative price and a sub-1 stock. -/
def negDf : DataFrame where
  cols := ["ID Partner", "Psku", "Offer Price", "Psku Live Express Stock",
           "Offer Code", "Spotlight"]
  rows := [negRow]

/-- A row whose partner id contains a non-alphanumeric character. -/
def hyphenRow : Row :=
  [("ID Partner", Cell.str "A-B"), ("Psku", Cell.str "S1"),
   ("Offer Price", Cell.num 100), ("Psku Live Express Stock", Cell.num 1),
   ("Offer Code", Cell.str "OC1"), ("Spotlight", Cell.num 10)]

/-- A table whose only partner id is "A-B". -/
def hyphenDf : DataFrame where
  cols := ["ID Partner", "Psku", "Offer Price", "Psku Live Express Stock",
           "Offer Code", "Spotlight"]
  rows := [hyphenRow]

/-- A table with the required columns but no rows. -/
def emptyDf : DataFrame where
  cols := ["ID Partner", "Psku", "Offer Price", "Psku Live Express Stock",
           "Offer Code", "Spotlight"]
  rows := []

/-- A table missing the `Offer Code` column. -/
def noOfferDf : DataFrame where
  cols := ["ID Partner", "Psku", "Offer Price", "Psku Live Express Stock",
           "Spotlight"]
  rows := []

/-- A table missing the `ID Partner` column. -/
def noPartnerDf : DataFrame where
  cols := ["Psku", "Offer Price", "Psku Live Express Stock", "Offer Code",
           "Spotlight"]
  rows := []

/-- A row whose stock happens to equal the configured fallback. -/
def stockTenRow : Row :=
  [("ID Partner", Cell.str "P1"), ("Psku", Cell.str "S1"),
   ("Offer Price", Cell.num 100), ("Psku Live Express Stock", Cell.num 10),
   ("Offer Code", Cell.str "OC1"), ("Spotlight", Cell.num 10)]

/-- A table whose only (eligible) row has stock 10 — the fallback value. -/
def stockTenDf : DataFrame where
  cols := ["ID Partner", "Psku", "Offer Price", "Psku Live Express Stock",
           "Offer Code", "Spotlight"]
  rows := [stockTenRow]

/-- Modelled from the spec (§4.3): the sheet-name formula the spec states,
`sanitize(partnerId, maxLen=15) + "_" + sanitize(columnName, maxLen=10)`
with `sanitize` stripping every non-alphanumeric character.  Stated for
comparison with `sheet_name`, which is what the code computes. -/
def spec_sheet_name (pid : String) (col_name : String) : String :=
  (String.mk (pid.data.filter Char.isAlphanum)).take 15 ++ "_" ++
    (String.mk (col_name.data.filter Char.isAlphanum)).take 10

/-! Supporting lemmas. -/

theorem mask_iff {col : String} {r : Row} :
    mask col r = true ↔
      ∃ v, toNumeric (getCell r col) = some v ∧ 0 < v := by
  unfold mask
  cases h : toNumeric (getCell r col) <;> simp

theorem foldr_max_gt_one (l : List ℚ) :
    1 < l.foldr max 0 ↔ ∃ v ∈ l, 1 < v := by
  induction l with
  | nil => simp
  | cons a l ih => simp [lt_max_iff, ih]

theorem deal_max_gt_iff {col : String} {rs : List Row} :
    1 < deal_max col rs ↔
      ∃ r ∈ rs, ∃ v, toNumeric (getCell r col) = some v ∧ 1 < v := by
  unfold deal_max
  rw [foldr_max_gt_one]
  constructor
  · rintro ⟨v, hv, h1⟩
    obtain ⟨r, hr, hrv⟩ := List.mem_filterMap.mp hv
    exact ⟨r, hr, v, hrv, h1⟩
  · rintro ⟨r, hr, v, hrv, h1⟩
    exact ⟨v, List.mem_filterMap.mpr ⟨r, hr, hrv⟩, h1⟩

theorem mem_deal_data {df : DataFrame} {pid : Cell} {col : String} {r : Row} :
    r ∈ deal_data df pid col ↔
      r ∈ partner_df df pid ∧
        ∃ v, toNumeric (getCell r col) = some v ∧ 0 < v := by
  unfold deal_data
  rw [List.mem_filter, mask_iff]

theorem divide_iff {df : DataFrame} {pid : Cell} {col : String} :
    divideDecision col (deal_data df pid col) = true ↔
      ∃ r ∈ partner_df df pid,
        ∃ v, toNumeric (getCell r col) = some v ∧ 1 < v := by
  unfold divideDecision
  rw [decide_eq_true_iff, deal_max_gt_iff]
  constructor
  · rintro ⟨r, hr, v, hv, h1⟩
    exact ⟨r, (mem_deal_data.mp hr).1, v, hv, h1⟩
  · rintro ⟨r, hr, v, hv, h1⟩
    exact ⟨r, mem_deal_data.mpr ⟨hr, v, hv, zero_lt_one.trans h1⟩, v, hv, h1⟩

/-! Claim theorems. -/

/-- C1: the discount-scale decision is global to each (partner, deal)
subset — if any non-null value of the partner's discount column exceeds 1
then every value is divided by 100 to obtain the factor, and if every
non-null value is at most 1 then every value is used unchanged. -/
theorem c1_discount_scale_global (df : DataFrame) (pid : Cell) (col : String) :
    ((∃ r ∈ partner_df df pid,
        ∃ v, toNumeric (getCell r col) = some v ∧ 1 < v) →
      ∀ w, discount_factor (divideDecision col (deal_data df pid col)) w =
        w / 100) ∧
    ((∀ r ∈ partner_df df pid,
        ∀ v, toNumeric (getCell r col) = some v → v ≤ 1) →
      ∀ w, discount_factor (divideDecision col (deal_data df pid col)) w =
        w) := by
  constructor
  · intro h w
    rw [divide_iff.mpr h]
    rfl
  · intro h w
    have hb : divideDecision col (deal_data df pid col) = false := by
      cases hb : divideDecision col (deal_data df pid col) with
      | false => rfl
      | true =>
        obtain ⟨r, hr, v, hv, h1⟩ := divide_iff.mp hb
        exact absurd (h r hr v hv) (not_le.mpr h1)
    rw [hb]
    rfl

/-- C1 witness: in the percent-scale sample every factor is divided by
100, and in the fraction-scale sample every factor is unchanged. -/
theorem c1_discount_scale_global_witness :
    discount_factor
        (divideDecision "Spotlight"
          (deal_data sampleDf (Cell.str "P1") "Spotlight")) 10 = 10 / 100 ∧
    discount_factor
        (divideDecision "Spotlight"
          (deal_data fracDf (Cell.str "P1") "Spotlight")) (1 / 2) = 1 / 2 :=
  ⟨(c1_discount_scale_global sampleDf (Cell.str "P1") "Spotlight").1
      ⟨sampleRow, by decide, 10, by decide, by decide⟩ 10,
   (c1_discount_scale_global fracDf (Cell.str "P1") "Spotlight").2
      (by with_unfolding_all decide) (1 / 2)⟩

/-- C2: a row yields an output line for a deal exactly when it belongs to
the partner's subset and its value in the deal's discount column is
present, numeric, and strictly positive; the rows a written sheet contains
are exactly the transforms of those rows. -/
theorem c2_eligibility_filter (fallback : ℚ) (df : DataFrame) (pid : Cell)
    (deal : Deal) :
    (∀ r, r ∈ deal_data df pid deal.col_name ↔
      r ∈ partner_df df pid ∧
        ∃ v, toNumeric (getCell r deal.col_name) = some v ∧ 0 < v) ∧
    (∀ pr, make_sheet fallback df pid deal = some pr →
      pr.1 = (deal_data df pid deal.col_name).map
        (mkOutputRow fallback deal
          (divideDecision deal.col_name (deal_data df pid deal.col_name)))) := by
  refine ⟨fun r => mem_deal_data, fun pr hpr => ?_⟩
  unfold make_sheet at hpr
  split at hpr
  · split at hpr
    · exact absurd hpr (by simp)
    · injection hpr with h
      rw [← h]
  · exact absurd hpr (by simp)

/-- C2 witness: the sample row is eligible and the written sheet holds
exactly its transform; a zero-discount row would be excluded. -/
theorem c2_eligibility_filter_witness :
    sampleRow ∈ deal_data sampleDf (Cell.str "P1") "Spotlight" :=
  ((c2_eligibility_filter 10 sampleDf (Cell.str "P1") sampleDeal).1
      sampleRow).mpr ⟨by decide, 10, by decide, by decide⟩

/-- C3 counterexample: with fallback 10, an eligible row whose original
stock is 10 produces a dealStock equal to the fallback although its
coerced stock is 10, not 0 — the "if and only if" of the claim fails in
the "only if" direction. -/
theorem c3_counterexample :
    (generate 10 [sampleDeal] stockTenDf none).sheets =
      [("P1_Spotlight", SheetContent.partner
          [⟨"SPOT1", Cell.str "P1", Cell.str "S1", some 90, Cell.num 10,
            "noon"⟩]),
       ("Summary_SPOT1", SheetContent.summary [Cell.str "OC1"])] ∧
    deal_stock 10 stockTenRow = Cell.num 10 ∧
    fillna0 (getCell stockTenRow "Psku Live Express Stock") = Cell.num 10 ∧
    Cell.num (10 : ℚ) ≠ Cell.num 0 := by with_unfolding_all decide

/-- C3 (amended): dealStock equals the fallback if the null-coerced stock
equals 0, and otherwise equals the original value unchanged; the "only if"
direction fails because the original stock may itself equal the
fallback. -/
theorem c3_stock_fallback_amended (fallback : ℚ) (r : Row) :
    deal_stock fallback r =
      if fillna0 (getCell r "Psku Live Express Stock") = Cell.num 0
      then Cell.num fallback
      else getCell r "Psku Live Express Stock" := by
  unfold deal_stock
  cases h : getCell r "Psku Live Express Stock" with
  | null => simp [fillna0, cellEq]
  | num q =>
    by_cases hq : q = 0
    · subst hq
      simp [fillna0, cellEq]
    · simp [fillna0, cellEq, hq]
  | str s => simp [fillna0, cellEq]

/-- Every pair a partner sheet in `partner_sheets` comes from: a partner
id, a deal, and a successful `make_sheet`. -/
theorem mem_partner_sheets {fallback : ℚ} {deals : List Deal}
    {df : DataFrame} {p : String × SheetContent}
    (hp : p ∈ partner_sheets fallback deals df) :
    ∃ pid ∈ partners df, ∃ deal ∈ deals,
      ∃ pr, make_sheet fallback df pid deal = some pr ∧
        p = (sheet_name pid deal.col_name, SheetContent.partner pr.1) := by
  unfold partner_sheets at hp
  obtain ⟨pid, hpid, hp1⟩ := List.mem_flatMap.mp hp
  obtain ⟨deal, hdeal, heq⟩ := List.mem_filterMap.mp hp1
  obtain ⟨pr, hpr, heq1⟩ := Option.map_eq_some'.mp heq
  exact ⟨pid, hpid, deal, hdeal, pr, hpr, heq1.symm⟩

/-- The rows of a successfully written sheet are exactly the transforms of
the filtered subset. -/
theorem make_sheet_rows {fallback : ℚ} {df : DataFrame} {pid : Cell}
    {deal : Deal} {pr : List OutputRow × List Cell}
    (h : make_sheet fallback df pid deal = some pr) :
    pr.1 = (deal_data df pid deal.col_name).map
      (mkOutputRow fallback deal
        (divideDecision deal.col_name (deal_data df pid deal.col_name))) := by
  unfold make_sheet at h
  split at h
  · split at h
    · exact absurd h (by simp)
    · injection h with h1
      rw [← h1]
  · exact absurd h (by simp)

/-- The offer codes a successful `make_sheet` feeds into the summary
accumulator are exactly the filtered subset's `Offer Code` column. -/
theorem make_sheet_codes {fallback : ℚ} {df : DataFrame} {pid : Cell}
    {deal : Deal} {pr : List OutputRow × List Cell}
    (h : make_sheet fallback df pid deal = some pr) :
    pr.2 = (deal_data df pid deal.col_name).map
      (fun r => getCell r "Offer Code") := by
  unfold make_sheet at h
  split at h
  · split at h
    · exact absurd h (by simp)
    · injection h with h1
      rw [← h1]
  · exact absurd h (by simp)

/-- A computed price, when defined, is an integer number of cents. -/
theorem deal_price_cents (divide : Bool) (col : String) (r : Row) :
    deal_price divide col r = none ∨
      ∃ n : ℤ, deal_price divide col r = some ((n : ℚ) / 100) := by
  unfold deal_price
  cases h1 : toNumeric (getCell r "Offer Price") with
  | none => exact Or.inl rfl
  | some p =>
    cases h2 : toNumeric (getCell r col) with
    | none => exact Or.inl rfl
    | some d =>
      exact Or.inr
        ⟨(p * (1 - discount_factor divide d) * 100 + 1 / 2).floor, rfl⟩

/-- With a fallback of at least 1, the computed stock is never null and
never 0. -/
theorem deal_stock_ne (fallback : ℚ) (hf : 1 ≤ fallback) (r : Row) :
    deal_stock fallback r ≠ Cell.null ∧
      deal_stock fallback r ≠ Cell.num 0 := by
  unfold deal_stock
  split
  · refine ⟨fun h => Cell.noConfusion h, fun h => ?_⟩
    injection h with h1
    rw [h1] at hf
    norm_num at hf
  · next hcond =>
    constructor
    · cases h : getCell r "Psku Live Express Stock" <;> simp [fillna0, h]
    · intro h
      rw [h] at hcond
      simp [cellEq] at hcond

/-- C4 counterexample: a 150 "percent" discount and a −5 stock pass the
eligibility filter, and the produced output row has a negative dealPrice
of −50 and a dealStock of −5, below 1 — both bounds claimed by the
invariant fail. -/
theorem c4_counterexample :
    (generate 10 [sampleDeal] negDf none).sheets =
      [("P1_Spotlight", SheetContent.partner
          [⟨"SPOT1", Cell.str "P1", Cell.str "S1", some (-50),
            Cell.num (-5), "noon"⟩]),
       ("Summary_SPOT1", SheetContent.summary [Cell.str "OC1"])] ∧
    ((-50 : ℚ) < 0 ∧ (-5 : ℚ) < 1) := by with_unfolding_all decide

/-- C4 (amended): every OutputRow a run produces has a dealPrice that,
when defined, is an exact integer number of cents (rounded to 2 decimal
places) though possibly negative, and — with the configured fallback ≥ 1 —
a dealStock that is never null and never 0, though it may be below 1 when
the original stock is. -/
theorem c4_output_invariants_amended (fallback : ℚ) (deals : List Deal)
    (df : DataFrame) (hf : 1 ≤ fallback) (name : String)
    (rows : List OutputRow)
    (hmem : (name, SheetContent.partner rows) ∈
      partner_sheets fallback deals df)
    (o : OutputRow) (ho : o ∈ rows) :
    (o.deal_price = none ∨ ∃ n : ℤ, o.deal_price = some ((n : ℚ) / 100)) ∧
    o.deal_stock ≠ Cell.null ∧ o.deal_stock ≠ Cell.num 0 := by
  obtain ⟨pid, hpid, deal, hdeal, pr, hpr, heq⟩ := mem_partner_sheets hmem
  have hrows : rows = pr.1 := by
    simpa using congrArg Prod.snd heq
  rw [hrows, make_sheet_rows hpr] at ho
  obtain ⟨r, hr, ho1⟩ := List.mem_map.mp ho
  subst ho1
  exact ⟨deal_price_cents _ deal.col_name r,
    (deal_stock_ne fallback hf r).1, (deal_stock_ne fallback hf r).2⟩

/-- C4 witness: the spec's §8 scenario row (price 90.00, stock 10)
satisfies the amended invariant. -/
theorem c4_output_invariants_amended_witness :
    ((⟨"SPOT1", Cell.str "P1", Cell.str "S1", some 90, Cell.num 10,
        "noon"⟩ : OutputRow).deal_price = none ∨
      ∃ n : ℤ, (⟨"SPOT1", Cell.str "P1", Cell.str "S1", some 90,
        Cell.num 10, "noon"⟩ : OutputRow).deal_price =
          some ((n : ℚ) / 100)) ∧
    (⟨"SPOT1", Cell.str "P1", Cell.str "S1", some 90, Cell.num 10,
        "noon"⟩ : OutputRow).deal_stock ≠ Cell.null ∧
    (⟨"SPOT1", Cell.str "P1", Cell.str "S1", some 90, Cell.num 10,
        "noon"⟩ : OutputRow).deal_stock ≠ Cell.num 0 :=
  c4_output_invariants_amended 10 [sampleDeal] sampleDf (by decide)
    "P1_Spotlight"
    [⟨"SPOT1", Cell.str "P1", Cell.str "S1", some 90, Cell.num 10, "noon"⟩]
    (by with_unfolding_all decide)
    ⟨"SPOT1", Cell.str "P1", Cell.str "S1", some 90, Cell.num 10, "noon"⟩
    (by decide)

/-- C5 counterexample: the partner id "A-B" is not sanitized — the engine
emits the sheet name "A-B_Spotlight", while the claimed formula yields
"AB_Spotlight". -/
theorem c5_counterexample :
    (partner_sheets 10 [sampleDeal] hyphenDf).map Prod.fst =
      ["A-B_Spotlight"] ∧
    spec_sheet_name "A-B" "Spotlight" = "AB_Spotlight" ∧
    ("A-B_Spotlight" : String) ≠ "AB_Spotlight" := by
  with_unfolding_all decide

/-- C5 (amended): every emitted partner sheet is named by `str(partnerId)`
truncated to 15 characters (with no character removed), an underscore, and
the column name stripped of non-alphanumeric characters and truncated to
10 characters. -/
theorem c5_sheet_name_amended (fallback : ℚ) (deals : List Deal)
    (df : DataFrame) (p : String × SheetContent)
    (hp : p ∈ partner_sheets fallback deals df) :
    ∃ pid ∈ partners df, ∃ deal ∈ deals,
      p.1 = (cellStr pid).take 15 ++ "_" ++
        (String.mk (deal.col_name.data.filter Char.isAlphanum)).take 10 := by
  obtain ⟨pid, hpid, deal, hdeal, pr, hpr, heq⟩ := mem_partner_sheets hp
  refine ⟨pid, hpid, deal, hdeal, ?_⟩
  rw [heq]
  rfl

/-- C5 witness: the hyphenated sample sheet's name has the amended
shape. -/
theorem c5_sheet_name_amended_witness :
    ∃ pid ∈ partners hyphenDf, ∃ deal ∈ [sampleDeal],
      (("A-B_Spotlight", SheetContent.partner
          [⟨"SPOT1", Cell.str "A-B", Cell.str "S1", some 90, Cell.num 1,
            "noon"⟩]) : String × SheetContent).1 =
        (cellStr pid).take 15 ++ "_" ++
          (String.mk (deal.col_name.data.filter Char.isAlphanum)).take 10 :=
  c5_sheet_name_amended 10 [sampleDeal] hyphenDf
    ("A-B_Spotlight", SheetContent.partner
      [⟨"SPOT1", Cell.str "A-B", Cell.str "S1", some 90, Cell.num 1,
        "noon"⟩])
    (by with_unfolding_all decide)

/-- C6: when the `Offer Code` column is absent (and the earlier checks
pass), the run stops with the configuration error before any partition
processing — no sheet is written and no artifact is produced (the stored
result is left untouched). -/
theorem c6_missing_offer_code (fallback : ℚ) (dealTypes : List Deal)
    (df : DataFrame) (prev : Option (List (String × SheetContent)))
    (h1 : active_deals dealTypes ≠ []) (h2 : "ID Partner" ∈ df.cols)
    (h3 : "Offer Code" ∉ df.cols) :
    generate fallback dealTypes df prev =
      ⟨Outcome.errMissingOfferCol, [], prev⟩ := by
  simp [generate, List.isEmpty_iff, h1, h2, h3]

/-- C6 witness: a table without `Offer Code` makes the run fail with the
offer-code configuration error, writing nothing. -/
theorem c6_missing_offer_code_witness :
    generate 10 [sampleDeal] noOfferDf none =
      ⟨Outcome.errMissingOfferCol, [], none⟩ :=
  c6_missing_offer_code 10 [sampleDeal] noOfferDf none (by decide)
    (by decide) (by decide)

theorem mem_foldl_dedup {α : Type} [DecidableEq α] (l : List α) :
    ∀ (acc : List α) (a : α),
      (a ∈ l.foldl (fun acc x => if x ∈ acc then acc else acc ++ [x]) acc ↔
        a ∈ acc ∨ a ∈ l) := by
  induction l with
  | nil => simp
  | cons x l ih =>
    intro acc a
    simp only [List.foldl_cons]
    by_cases hx : x ∈ acc
    · rw [if_pos hx, ih]
      constructor
      · rintro (h | h)
        · exact Or.inl h
        · exact Or.inr (List.mem_cons_of_mem _ h)
      · rintro (h | h)
        · exact Or.inl h
        · rcases List.mem_cons.mp h with rfl | h
          · exact Or.inl hx
          · exact Or.inr h
    · rw [if_neg hx, ih]
      simp only [List.mem_append, List.mem_singleton, List.mem_cons]
      tauto

theorem nodup_foldl_dedup {α : Type} [DecidableEq α] (l : List α) :
    ∀ acc : List α, acc.Nodup →
      (l.foldl (fun acc x => if x ∈ acc then acc else acc ++ [x])
        acc).Nodup := by
  induction l with
  | nil => intro acc h; simpa using h
  | cons x l ih =>
    intro acc h
    simp only [List.foldl_cons]
    by_cases hx : x ∈ acc
    · rw [if_pos hx]
      exact ih acc h
    · rw [if_neg hx]
      refine ih _ ?_
      simp [List.nodup_append, h, hx]

theorem mem_firstSeen {α : Type} [DecidableEq α] {a : α} {l : List α} :
    a ∈ firstSeen l ↔ a ∈ l := by
  unfold firstSeen
  rw [mem_foldl_dedup]
  simp

theorem firstSeen_nodup {α : Type} [DecidableEq α] (l : List α) :
    (firstSeen l).Nodup :=
  nodup_foldl_dedup l [] (by simp)

theorem lookup_mem_pairs :
    ∀ {l : List (String × Cell)} {a : String} {b : Cell},
      List.lookup a l = some b → (a, b) ∈ l := by
  intro l
  induction l with
  | nil => intro a b h; simp [List.lookup] at h
  | cons p l ih =>
    intro a b h
    cases p with
    | mk k v =>
      rw [List.lookup] at h
      cases hab : a == k with
      | true =>
        simp only [hab] at h
        injection h with h1
        rw [eq_of_beq hab, ← h1]
        exact List.mem_cons_self _ _
      | false =>
        simp only [hab] at h
        exact List.mem_cons_of_mem _ (ih h)

/-- In a well-formed frame, reading a column that does not exist yields
`NaN`. -/
theorem getCell_null_of_not_col {df : DataFrame} (hwf : WellFormed df)
    {r : Row} (hr : r ∈ df.rows) {c : String} (hc : c ∉ df.cols) :
    getCell r c = Cell.null := by
  unfold getCell
  cases h : List.lookup c r with
  | none => rfl
  | some v => exact absurd (hwf r hr (c, v) (lookup_mem_pairs h)) hc

/-- In a well-formed frame, a missing deal column filters every row out. -/
theorem deal_data_eq_nil_of_not_col {df : DataFrame} (hwf : WellFormed df)
    {pid : Cell} {c : String} (hc : c ∉ df.cols) :
    deal_data df pid c = [] := by
  unfold deal_data
  rw [List.filter_eq_nil_iff]
  intro r hr
  have hrd : r ∈ df.rows := List.mem_of_mem_filter hr
  simp [mask, getCell_null_of_not_col hwf hrd hc, toNumeric]

/-- In a well-formed frame, an eligible row's deal column exists. -/
theorem col_mem_of_deal_data {df : DataFrame} (hwf : WellFormed df)
    {pid : Cell} {col : String} {r : Row}
    (hr : r ∈ deal_data df pid col) : col ∈ df.cols := by
  obtain ⟨hrp, v, hv, _⟩ := mem_deal_data.mp hr
  have hrd : r ∈ df.rows := List.mem_of_mem_filter hrp
  by_contra hc
  rw [getCell_null_of_not_col hwf hrd hc] at hv
  simp [toNumeric] at hv

/-- A sheet is written for a (partner, deal) pair exactly when the deal
column exists and some row passes the filter. -/
theorem make_sheet_isSome_iff {fallback : ℚ} {df : DataFrame} {pid : Cell}
    {deal : Deal} :
    (make_sheet fallback df pid deal).isSome = true ↔
      deal.col_name ∈ df.cols ∧ deal_data df pid deal.col_name ≠ [] := by
  by_cases hc : deal.col_name ∈ df.cols
  · by_cases he : deal_data df pid deal.col_name = []
    · simp [make_sheet, hc, he]
    · simp [make_sheet, hc, he, List.isEmpty_iff]
  · simp [make_sheet, hc]

/-- The codes a (partner, deal) pair contributes to the running summary —
also when no sheet is written — are the filtered subset's offer codes. -/
theorem make_sheet_codes_total {fallback : ℚ} {df : DataFrame} {pid : Cell}
    {deal : Deal} (hwf : WellFormed df) :
    (match make_sheet fallback df pid deal with
      | some pr => pr.2
      | none => []) =
    (deal_data df pid deal.col_name).map (fun r => getCell r "Offer Code") := by
  cases h : make_sheet fallback df pid deal with
  | some pr => exact make_sheet_codes h
  | none =>
    by_cases hc : deal.col_name ∈ df.cols
    · have he : deal_data df pid deal.col_name = [] := by
        by_contra hne
        have hs : (make_sheet fallback df pid deal).isSome = true :=
          make_sheet_isSome_iff.mpr ⟨hc, hne⟩
        rw [h] at hs
        simp at hs
      simp [he]
    · simp [deal_data_eq_nil_of_not_col hwf hc]

/-- Under distinct deal codes, only the deal itself feeds its code's
accumulator. -/
theorem flatMap_code_pick {fallback : ℚ} {df : DataFrame} {pid : Cell} :
    ∀ (deals : List Deal) (deal : Deal),
      (deals.map Deal.deal_code).Nodup → deal ∈ deals →
      (deals.flatMap (fun d =>
        if d.deal_code = deal.deal_code then
          match make_sheet fallback df pid d with
          | some pr => pr.2
          | none => []
        else [])) =
      (match make_sheet fallback df pid deal with
        | some pr => pr.2
        | none => []) := by
  intro deals
  induction deals with
  | nil => intro deal _ hd; cases hd
  | cons d rest ih =>
    intro deal hnd hd
    have hnd1 : d.deal_code ∉ rest.map Deal.deal_code :=
      (List.nodup_cons.mp (by simpa using hnd)).1
    have hnd2 : (rest.map Deal.deal_code).Nodup :=
      (List.nodup_cons.mp (by simpa using hnd)).2
    rw [List.flatMap_cons]
    rcases List.mem_cons.mp hd with rfl | hd1
    · rw [if_pos rfl]
      have hrest : rest.flatMap (fun d1 =>
          if d1.deal_code = deal.deal_code then
            match make_sheet fallback df pid d1 with
            | some pr => pr.2
            | none => []
          else []) = [] := by
        rw [List.flatMap_eq_nil_iff]
        intro d1 hd1
        rw [if_neg]
        intro hcontra
        exact hnd1 (hcontra ▸ List.mem_map_of_mem Deal.deal_code hd1)
      rw [hrest, List.append_nil]
    · have hne : d.deal_code ≠ deal.deal_code := by
        intro hcontra
        exact hnd1 (hcontra ▸ List.mem_map_of_mem Deal.deal_code hd1)
      rw [if_neg hne, List.nil_append]
      exact ih deal hnd2 hd1

/-- Under distinct deal codes, the accumulator a deal's code ends up with
is exactly the deal's qualified offer codes across all partners. -/
theorem deal_summaries_eq_qualified (fallback : ℚ) {deals : List Deal}
    {df : DataFrame} {deal : Deal} (hwf : WellFormed df)
    (hnd : (deals.map Deal.deal_code).Nodup) (hd : deal ∈ deals) :
    deal_summaries fallback deals df deal.deal_code =
      qualified_codes df deal := by
  unfold deal_summaries qualified_codes
  congr 1
  funext pid
  rw [flatMap_code_pick deals deal hnd hd]
  exact make_sheet_codes_total hwf

/-- C7: under distinct deal codes, a deal with no qualifying row across
all partners produces no summary sheet; otherwise its summary sheet is
emitted, contains no duplicate offer codes, and contains exactly the offer
codes of the rows that qualified for that deal across all partners. -/
theorem c7_summary_dedup_complete (fallback : ℚ) (deals : List Deal)
    (df : DataFrame) (hwf : WellFormed df)
    (hnd : (deals.map Deal.deal_code).Nodup)
    (deal : Deal) (hd : deal ∈ deals) :
    (qualified_codes df deal = [] →
      summary_for fallback deals df deal.deal_code = none) ∧
    (qualified_codes df deal ≠ [] →
      summary_for fallback deals df deal.deal_code =
        some ("Summary_" ++ safe_deal_code deal.deal_code,
          SheetContent.summary (firstSeen (qualified_codes df deal))) ∧
      (firstSeen (qualified_codes df deal)).Nodup ∧
      (∀ c, c ∈ firstSeen (qualified_codes df deal) ↔
        c ∈ qualified_codes df deal) ∧
      ("Summary_" ++ safe_deal_code deal.deal_code,
        SheetContent.summary (firstSeen (qualified_codes df deal))) ∈
          summary_sheets fallback deals df) := by
  have hq := deal_summaries_eq_qualified fallback hwf hnd hd
  constructor
  · intro h0
    unfold summary_for
    rw [hq, h0]
    rfl
  · intro hne
    have hsome : summary_for fallback deals df deal.deal_code =
        some ("Summary_" ++ safe_deal_code deal.deal_code,
          SheetContent.summary (firstSeen (qualified_codes df deal))) := by
      unfold summary_for
      rw [hq, if_neg (by simpa [List.isEmpty_iff] using hne)]
    refine ⟨hsome, firstSeen_nodup _, fun c => mem_firstSeen, ?_⟩
    unfold summary_sheets
    exact List.mem_filterMap.mpr
      ⟨deal.deal_code,
        mem_firstSeen.mpr (List.mem_map_of_mem Deal.deal_code hd), hsome⟩

/-- C7 witness: in the §8 scenario the SPOT1 summary sheet is emitted and
holds exactly the deduplicated qualified offer codes. -/
theorem c7_summary_dedup_complete_witness :
    summary_for 10 [sampleDeal] sampleDf "SPOT1" =
      some ("Summary_" ++ safe_deal_code "SPOT1",
        SheetContent.summary (firstSeen (qualified_codes sampleDf sampleDeal))) :=
  ((c7_summary_dedup_complete 10 [sampleDeal] sampleDf (by decide)
      (by decide) sampleDeal (by decide)).2 (by decide)).1

/-- C8: once the configuration checks pass, a full pass that generates no
sheet ends in the warning outcome with the stored artifact cleared, and a
full pass that generates at least one sheet stores exactly those sheets —
an artifact is produced if and only if a sheet was created. -/
theorem c8_empty_result (fallback : ℚ) (dealTypes : List Deal)
    (df : DataFrame) (prev : Option (List (String × SheetContent)))
    (h1 : active_deals dealTypes ≠ []) (h2 : "ID Partner" ∈ df.cols)
    (h3 : "Offer Code" ∈ df.cols) :
    (all_sheets fallback (active_deals dealTypes) df = [] →
      generate fallback dealTypes df prev =
        ⟨Outcome.warnNoMatchingDeals, [], none⟩) ∧
    (all_sheets fallback (active_deals dealTypes) df ≠ [] →
      generate fallback dealTypes df prev =
        ⟨Outcome.success, all_sheets fallback (active_deals dealTypes) df,
          some (all_sheets fallback (active_deals dealTypes) df)⟩) := by
  constructor
  · intro h
    simp [generate, List.isEmpty_iff, h1, h2, h3, h]
  · intro h
    simp [generate, List.isEmpty_iff, h1, h2, h3, h]

/-- C8 witness: a pass over an empty table clears the previously stored
artifact and warns, and the §8 scenario's pass stores its sheets. -/
theorem c8_empty_result_witness :
    generate 10 [sampleDeal] emptyDf
        (some [("old", SheetContent.summary [])]) =
      ⟨Outcome.warnNoMatchingDeals, [], none⟩ ∧
    generate 10 [sampleDeal] sampleDf none =
      ⟨Outcome.success, all_sheets 10 (active_deals [sampleDeal]) sampleDf,
        some (all_sheets 10 (active_deals [sampleDeal]) sampleDf)⟩ :=
  ⟨(c8_empty_result 10 [sampleDeal] emptyDf
      (some [("old", SheetContent.summary [])]) (by decide) (by decide)
      (by decide)).1 (by decide),
   (c8_empty_result 10 [sampleDeal] sampleDf none (by decide) (by decide)
      (by decide)).2 (by with_unfolding_all decide)⟩

/-- C9: under distinct deal codes, a deal's summary sheet is emitted if
and only if at least one partner sheet was written for that deal. -/
theorem c9_summary_iff_partner_sheet (fallback : ℚ) (deals : List Deal)
    (df : DataFrame) (hwf : WellFormed df)
    (hnd : (deals.map Deal.deal_code).Nodup)
    (deal : Deal) (hd : deal ∈ deals) :
    (summary_for fallback deals df deal.deal_code).isSome = true ↔
      ∃ pid ∈ partners df,
        (make_sheet fallback df pid deal).isSome = true := by
  have hq := deal_summaries_eq_qualified fallback hwf hnd hd
  unfold summary_for
  rw [hq]
  constructor
  · intro h
    by_cases hqe : (qualified_codes df deal).isEmpty
    · rw [if_pos hqe] at h
      simp at h
    · have hne : qualified_codes df deal ≠ [] := by
        simpa [List.isEmpty_iff] using hqe
      obtain ⟨c, hc⟩ := List.exists_mem_of_ne_nil _ hne
      obtain ⟨pid, hpid, hcpid⟩ := List.mem_flatMap.mp hc
      obtain ⟨r, hr, _⟩ := List.mem_map.mp hcpid
      refine ⟨pid, hpid, make_sheet_isSome_iff.mpr
        ⟨col_mem_of_deal_data hwf hr, fun hnil => ?_⟩⟩
      rw [hnil] at hr
      exact List.not_mem_nil r hr
  · rintro ⟨pid, hpid, hs⟩
    obtain ⟨hc, hne⟩ := make_sheet_isSome_iff.mp hs
    have hq1 : qualified_codes df deal ≠ [] := by
      intro h0
      unfold qualified_codes at h0
      rw [List.flatMap_eq_nil_iff] at h0
      exact hne (by simpa [List.map_eq_nil_iff] using h0 pid hpid)
    rw [if_neg (by simpa [List.isEmpty_iff] using hq1)]
    rfl

/-- C9 witness: in the §8 scenario, the partner sheet for P1 exists and so
does the SPOT1 summary. -/
theorem c9_summary_iff_partner_sheet_witness :
    (summary_for 10 [sampleDeal] sampleDf "SPOT1").isSome = true :=
  (c9_summary_iff_partner_sheet 10 [sampleDeal] sampleDf (by decide)
      (by decide) sampleDeal (by decide)).mpr
    ⟨Cell.str "P1", by decide, by with_unfolding_all decide⟩

/-- C10: the configuration checks run in a fixed order — no active deal
(warning) first, then missing `ID Partner` (error), then missing
`Offer Code` (error) — only the first failing check is reported, and in
each case nothing is processed and the stored artifact is untouched. -/
theorem c10_config_precedence (fallback : ℚ) (dealTypes : List Deal)
    (df : DataFrame) (prev : Option (List (String × SheetContent))) :
    (active_deals dealTypes = [] →
      generate fallback dealTypes df prev =
        ⟨Outcome.warnNoActiveDeals, [], prev⟩) ∧
    (active_deals dealTypes ≠ [] → "ID Partner" ∉ df.cols →
      generate fallback dealTypes df prev =
        ⟨Outcome.errMissingPartnerCol, [], prev⟩) ∧
    (active_deals dealTypes ≠ [] → "ID Partner" ∈ df.cols →
      "Offer Code" ∉ df.cols →
      generate fallback dealTypes df prev =
        ⟨Outcome.errMissingOfferCol, [], prev⟩) := by
  refine ⟨fun h1 => ?_, fun h1 h2 => ?_, fun h1 h2 h3 => ?_⟩
  · simp [generate, List.isEmpty_iff, h1]
  · simp [generate, List.isEmpty_iff, h1, h2]
  · simp [generate, List.isEmpty_iff, h1, h2, h3]

/-- C10 witness: an all-blank deal list only warns even though columns are
missing too; a missing `ID Partner` and a missing `Offer Code` each
surface exactly their own error. -/
theorem c10_config_precedence_witness :
    generate 10 [⟨"Spotlight", "  "⟩] noPartnerDf
        (some [("old", SheetContent.summary [])]) =
      ⟨Outcome.warnNoActiveDeals, [],
        some [("old", SheetContent.summary [])]⟩ ∧
    generate 10 [sampleDeal] noPartnerDf none =
      ⟨Outcome.errMissingPartnerCol, [], none⟩ ∧
    generate 10 [sampleDeal] noOfferDf (some []) =
      ⟨Outcome.errMissingOfferCol, [], some []⟩ :=
  ⟨(c10_config_precedence 10 [⟨"Spotlight", "  "⟩] noPartnerDf
      (some [("old", SheetContent.summary [])])).1 (by decide),
   (c10_config_precedence 10 [sampleDeal] noPartnerDf none).2.1
      (by decide) (by decide),
   (c10_config_precedence 10 [sampleDeal] noOfferDf (some [])).2.2
      (by decide) (by decide) (by decide)⟩

end Deals
